import Mathlib

/-!
Shallow embedding of the shiprelay-backend proxy (Express/JS) for verification.

The embedded code is the first revision in `src/unnamed/part_000` (the router
with token cache, search endpoint, archive endpoint and the REST-based
Shopify fulfillment cancellation pipeline), plus `getStatusColor` from
`src/assets/iframe.js`.

JavaScript-specific behaviour is modelled explicitly:
* `null`/`undefined` becomes `Option`;
* string truthiness (`""` is falsy) becomes `jsTruthyStr`;
* number truthiness (`0` is falsy) becomes `jsTruthyNum`;
* `String.prototype.trim` becomes `jsTrim` (structural, on the char list);
* `String.prototype.toLowerCase` becomes `jsToLowerCase`;
* `String.prototype.replace('#','')` (first occurrence only) becomes
  `orderNumberOf`;
* `Date.now()` is a `Nat` parameter (milliseconds);
* each outbound HTTP call is an oracle value in a "world" record, and the
  calls actually issued are returned as an explicit trace so that claims
  about "no upstream call is made" are statable.
-/

/-- JS truthiness of a nullable string: `null`/`undefined` and `""` are falsy. -/
def jsTruthyStr : Option String → Bool
  | none => false
  | some s => !(s == "")

/-- JS truthiness of a nullable number: `null`/`undefined` and `0` are falsy. -/
def jsTruthyNum : Option Nat → Bool
  | none => false
  | some n => !(n == 0)

/-- Embedding of `String.prototype.trim`: drop whitespace from both ends. -/
def jsTrim (s : String) : String :=
  ⟨(((s.data.dropWhile Char.isWhitespace).reverse.dropWhile Char.isWhitespace).reverse)⟩

/-- Embedding of `String.prototype.toLowerCase` (basic-latin case folding). -/
def jsToLowerCase (s : String) : String :=
  ⟨s.data.map Char.toLower⟩

/-- Embedding of `str.replace('#', '')` on the char list: JS `replace` with a
string pattern removes only the first occurrence. -/
def removeFirstHash : List Char → List Char
  | [] => []
  | c :: cs => if c = '#' then cs else c :: removeFirstHash cs

/-- `const orderNumber = shipmentData.order_ref.replace('#', '')`
(`src/unnamed/part_000` line 106). -/
def orderNumberOf (ref : String) : String :=
  ⟨removeFirstHash ref.data⟩

/-- Following the spec's words only (§4.3 step 1: "Normalize `order_ref` by
removing a leading marker character to get an order number"): strip a single
leading `'#'`, touching nothing else.  Used to compare the spec's description
of the normalization with the source's `orderNumberOf`. -/
def stripLeadingHash (s : String) : String :=
  match s.data with
  | '#' :: rest => ⟨rest⟩
  | _ => s

/-! ## Token cache (`src/unnamed/part_000` lines 7-42) -/

/-- `let tokenCache = { token: null, expiry: null }`. -/
structure TokenCache where
  token : Option String
  expiry : Option Nat
deriving DecidableEq, Repr

/-- The cache at process start: both fields `null`. -/
def initialTokenCache : TokenCache := { token := none, expiry := none }

/-- The upstream login response: a success carries the `access_token`
string, a failure carries the HTTP status and error text. -/
inductive LoginResponse where
  | success (accessToken : String)
  | failure (status : Nat) (body : String)
deriving DecidableEq, Repr

/-- `tokenCache.token && tokenCache.expiry && Date.now() < tokenCache.expiry`
(line 14), with JS truthiness made explicit. -/
def cacheHit (st : TokenCache) (now : Nat) : Bool :=
  jsTruthyStr st.token && jsTruthyNum st.expiry && decide (now < st.expiry.getD 0)

/-- How a `getShipRelayToken` call ended: from the cache, freshly fetched,
or thrown (`Failed to login to ShipRelay`). -/
inductive TokenResult where
  | cached (t : String)
  | fresh (t : String)
  | loginFailed (status : Nat) (body : String)
deriving DecidableEq, Repr

/-- Result, post-state and whether the login request was issued. -/
structure TokenStep where
  result : TokenResult
  cache : TokenCache
  loginAttempted : Bool
deriving DecidableEq, Repr

/-- `getShipRelayToken` (lines 12-42): return the cached token when the
cache check passes; otherwise perform the login, throw on a non-ok
response, and on success store the token with expiry `now + 50` minutes. -/
def getShipRelayToken (st : TokenCache) (now : Nat) (login : LoginResponse) : TokenStep :=
  if cacheHit st now then
    { result := .cached (st.token.getD ""), cache := st, loginAttempted := false }
  else
    match login with
    | .failure status body =>
      { result := .loginFailed status body, cache := st, loginAttempted := true }
    | .success t =>
      { result := .fresh t,
        cache := { token := some t, expiry := some (now + 50 * 60 * 1000) },
        loginAttempted := true }

/-! ## Status colors (`src/assets/iframe.js` lines 30-41) -/

/-- The `statusColors` table of `getStatusColor`. -/
def statusColors : List (String × String) :=
  [("queued", "#f59e0b"),
   ("held", "#ef4444"),
   ("requested", "#3b82f6"),
   ("processing", "#8b5cf6"),
   ("shipped", "#10b981"),
   ("returned", "#f97316"),
   ("inactive", "#6b7280")]

/-- The all-lowercase own property names of `Object.prototype`.  JS bracket
access on the `statusColors` object literal falls back to the prototype
chain, and since the lookup key is always `status?.toLowerCase()`, exactly
these inherited names are reachable: `"constructor"` (the inherited
`Object` constructor, truthy) and `"__proto__"` (the inherited
`Object.prototype`, truthy).  Every other `Object.prototype` member name
(`hasOwnProperty`, `toString`, `valueOf`, ...) contains an uppercase
letter and can never be produced by `toLowerCase`. -/
def protoLowercaseKeys : List String := ["constructor", "__proto__"]

/-- What `statusColors[key] || '#6b7280'` evaluates to: a string (an own
color value, or the default when the access yields falsy `undefined`), or
a truthy non-string member inherited from `Object.prototype`, which
short-circuits `||` and is returned as-is. -/
inductive StatusLookup where
  | str (c : String)
  | protoMember (k : String)
deriving DecidableEq, Repr

/-- `statusColors[key] || '#6b7280'` for an already-lowercased key:
own properties first, then the prototype chain, then the default. -/
def statusColorAccess (key : String) : StatusLookup :=
  match statusColors.lookup key with
  | some c => .str c
  | none => if key ∈ protoLowercaseKeys then .protoMember key else .str "#6b7280"

/-- `getStatusColor(status)`: `statusColors[status?.toLowerCase()] || '#6b7280'`.
An absent status indexes with the property key `"undefined"`, which misses
both the table and the reachable prototype names, giving the default. -/
def getStatusColor (status : Option String) : StatusLookup :=
  match status with
  | none => .str "#6b7280"
  | some s => statusColorAccess (jsToLowerCase s)

/-! ## Search endpoint `GET /shipment` (`src/unnamed/part_000` lines 48-94) -/

/-- An Express query parameter value: absent, a string, or something else
(array / object from repeated or bracketed parameters). -/
inductive QueryValue where
  | absent
  | str (s : String)
  | other
deriving DecidableEq, Repr

/-- The validation guard
`!order_ref || typeof order_ref !== 'string' || order_ref.trim().length === 0`
(line 52).  An absent value is falsy; an array/object is truthy but fails
the `typeof` test; a string fails when empty or whitespace-only. -/
def searchInvalid : QueryValue → Bool
  | .absent => true
  | .other => true
  | .str s => s == "" || jsTrim s == ""

/-- One shipment as far as the search endpoint needs it: an identity and the
`updated_at` timestamp (the numeric value of `new Date(updated_at)`, ms). -/
structure Shipment where
  id : String
  updated_at : Int
deriving DecidableEq, Repr

/-- The comparator `(a, b) => new Date(b.updated_at) - new Date(a.updated_at)`
as the Boolean "a may precede b": `cmp a b <= 0`. -/
def shipmentLe (a b : Shipment) : Bool :=
  decide (b.updated_at ≤ a.updated_at)

/-- `data.data.sort(...)`: JS `Array.prototype.sort` is a stable sort
consistent with the comparator, embedded as a stable merge sort. -/
def sortShipments (l : List Shipment) : List Shipment :=
  l.mergeSort shipmentLe

/-- The parsed JSON payload of the shipments search: `data` is `some l` when
the `data` field is an array (`data.data && Array.isArray(data.data)`),
`none` otherwise. -/
structure SearchPayload where
  data : Option (List Shipment)
deriving DecidableEq, Repr

/-- Outcome of the upstream shipments fetch: network/parse rejection,
a non-ok response, or an ok response with its parsed payload. -/
inductive SearchFetch where
  | reject
  | notOk (status : Nat) (body : String)
  | okPayload (p : SearchPayload)
deriving DecidableEq, Repr

/-- Everything outside the handler that a search request interacts with. -/
structure SearchWorld where
  cache : TokenCache
  now : Nat
  login : LoginResponse
  upstream : SearchFetch
deriving DecidableEq, Repr

/-- The response body the search handler can produce. -/
inductive SearchRespBody where
  | validation
  | upstreamErr (status : Nat)
  | payload (p : SearchPayload)
  | serverError
deriving DecidableEq, Repr

/-- Search handler observables: response, cache post-state, and which
upstream requests were issued. -/
structure SearchOutcome where
  status : Nat
  body : SearchRespBody
  cache : TokenCache
  loginAttempted : Bool
  upstreamCalled : Bool
deriving DecidableEq, Repr

/-- `router.get('/shipment', ...)` (lines 48-94): validate, fetch a token
(a thrown login failure is caught and answered 500), forward the query,
pass a non-ok upstream status through, and on success sort `data.data`
by `updated_at` descending before replying 200. -/
def searchHandler (q : QueryValue) (w : SearchWorld) : SearchOutcome :=
  if searchInvalid q then
    { status := 400, body := .validation, cache := w.cache,
      loginAttempted := false, upstreamCalled := false }
  else
    let step := getShipRelayToken w.cache w.now w.login
    match step.result with
      | .loginFailed _ _ =>
        { status := 500, body := .serverError, cache := step.cache,
          loginAttempted := step.loginAttempted, upstreamCalled := false }
      | _ =>
        match w.upstream with
        | .reject =>
          { status := 500, body := .serverError, cache := step.cache,
            loginAttempted := step.loginAttempted, upstreamCalled := true }
        | .notOk status _ =>
          { status := status, body := .upstreamErr status, cache := step.cache,
            loginAttempted := step.loginAttempted, upstreamCalled := true }
        | .okPayload p =>
          { status := 200, body := .payload { data := p.data.map sortShipments },
            cache := step.cache,
            loginAttempted := step.loginAttempted, upstreamCalled := true }

/-! ## Shopify cancellation pipeline (`src/unnamed/part_000` lines 98-189) -/

/-- The part of the fetched shipment the pipeline reads: its `order_ref`
field, which may be absent (`none`) or empty (falsy in JS). -/
structure ShipmentData where
  order_ref : Option String
deriving DecidableEq, Repr

/-- Generic outcome of one `fetch` whose parsed body has type `α`:
`reject` covers a network failure or a body-reading/JSON-parsing throw. -/
inductive Fetch (α : Type) where
  | reject
  | resp (ok : Bool) (body : α)
deriving DecidableEq, Repr

/-- One order from the Shopify order-search response. -/
structure ShopOrder where
  id : Nat
deriving DecidableEq, Repr

/-- Parsed Shopify order-search body: the `orders` field may be absent. -/
structure OrdersBody where
  orders : Option (List ShopOrder)
deriving DecidableEq, Repr

/-- One fulfillment: id and `status` field (absent statuses are kept by the
`f.status !== 'cancelled'` filter). -/
structure Fulfillment where
  id : Nat
  status : Option String
deriving DecidableEq, Repr

/-- Parsed Shopify fulfillments body: the `fulfillments` field may be
absent (`fulfillmentsData.fulfillments?.filter(...) || []`). -/
structure FulfillBody where
  fulfillments : Option (List Fulfillment)
deriving DecidableEq, Repr

/-- The Shopify-side environment of one pipeline run: the two configuration
variables and an oracle for each upstream call the pipeline can make. -/
structure ShopifyEnv where
  shopToken : Option String
  shopDomain : Option String
  orderSearchResp : Fetch OrdersBody
  fulfillResp : Fetch FulfillBody
  cancelResp : Nat → Fetch Unit

/-- A commerce-platform call issued by the pipeline. -/
inductive ShopCall where
  | orderSearch (orderNumber : String)
  | fulfillmentList (orderId : Nat)
  | cancel (orderId : Nat) (fulfillmentId : Nat)
deriving DecidableEq, Repr

/-- `!process.env.SHOPIFY_ACCESS_TOKEN || !process.env.SHOPIFY_SHOP_DOMAIN`
negated: both credentials set and non-empty. -/
def credsConfigured (env : ShopifyEnv) : Bool :=
  jsTruthyStr env.shopToken && jsTruthyStr env.shopDomain

/-- `activeFulfillments = fulfillmentsData.fulfillments?.filter(f => f.status !== 'cancelled') || []`
(line 161). -/
def activeFulfillments (b : FulfillBody) : List Fulfillment :=
  (b.fulfillments.getD []).filter (fun f => !(f.status == some "cancelled"))

/-- The cancellation loop (lines 163-185): each active fulfillment gets one
cancel call; a rejected cancel `fetch` throws out of the loop (to the
pipeline's `catch`), aborting the remaining iterations, while an ok or
non-ok response only gets logged and the loop continues. -/
def runCancels (env : ShopifyEnv) (orderId : Nat) : List Fulfillment → List ShopCall
  | [] => []
  | f :: fs =>
    ShopCall.cancel orderId f.id ::
      match env.cancelResp f.id with
      | .reject => []
      | .resp _ _ => runCancels env orderId fs

/-- `cancelShopifyFulfillment(shipmentData)` (lines 98-189), returning the
trace of commerce-platform calls issued.  The guard (line 99) skips the
whole pipeline when `order_ref` or either credential is falsy; the body is
wrapped in `try/catch` whose `catch` only logs, so the function never
throws — every abort just cuts the trace short. -/
def cancelShopifyFulfillment (sd : Option ShipmentData) (env : ShopifyEnv) :
    List ShopCall :=
  if !(jsTruthyStr (sd.bind (·.order_ref))) || !(credsConfigured env) then
    []
  else
    let ref := (sd.bind (·.order_ref)).getD ""
    ShopCall.orderSearch (orderNumberOf ref) ::
      match env.orderSearchResp with
      | .reject => []
      | .resp ok body =>
        if !ok then []
        else
          match body.orders with
          | none => []
          | some [] => []
          | some (o :: _) =>
            ShopCall.fulfillmentList o.id ::
              match env.fulfillResp with
              | .reject => []
              | .resp ok2 fbody =>
                if !ok2 then []
                else runCancels env o.id (activeFulfillments fbody)

/-! ## Archive endpoint `PATCH /shipment/:id/archive` (lines 191-236) -/

/-- Outcome of the pre-archive shipment-by-id fetch, abstracted to what the
handler keeps: `notOk` leaves `shipmentData = null`; `okData none` models an
ok response whose parsed body is falsy after the `.data || json` fallback
(e.g. the JSON document `0` or `""`); `okData (some d)` is the usual case;
`reject` is a network or parse throw (caught by the handler's outer
`catch`). -/
inductive ShipFetch where
  | reject
  | notOk (status : Nat)
  | okData (d : Option ShipmentData)
deriving DecidableEq, Repr

/-- The body of the archive upstream response: either text that parses as
JSON (carrying the parsed document, identified by its canonical text) or
unparseable raw text. -/
inductive UpBody where
  | json (d : String)
  | raw (t : String)
deriving DecidableEq, Repr

/-- Outcome of the archive `fetch` itself: rejection, or a response with
`ok`, `status` and body text. -/
inductive ArchiveFetch where
  | reject
  | resp (ok : Bool) (status : Nat) (body : UpBody)
deriving DecidableEq, Repr

/-- Everything outside the archive handler that one request interacts with. -/
structure ArchiveWorld where
  cache : TokenCache
  now : Nat
  login : LoginResponse
  shipmentFetch : ShipFetch
  archiveFetch : ArchiveFetch
  shopify : ShopifyEnv

/-- The response body the archive handler can produce. -/
inductive ArchiveRespBody where
  | passthrough (d : String)
  | invalidUpstream (t : String)
  | failed
deriving DecidableEq, Repr

/-- Archive handler observables: response, cache post-state, whether the
archive call was issued, and the commerce-platform calls issued. -/
structure ArchiveOutcome where
  status : Nat
  body : ArchiveRespBody
  cache : TokenCache
  loginAttempted : Bool
  archiveCalled : Bool
  shopCalls : List ShopCall
deriving DecidableEq, Repr

/-- `shipmentData` after lines 203-207: `null` unless the fetch resolved ok
with a truthy parsed value. -/
def shipmentDataOf : ShipFetch → Option ShipmentData
  | .reject => none
  | .notOk _ => none
  | .okData d => d

/-- `router.patch('/shipment/:id/archive', ...)` (lines 191-236): token,
best-effort shipment prefetch, archive call, parse, fire-and-forget
Shopify cancellation, passthrough reply.  A thrown login failure, a
rejected fetch, or a rejected body read reaches the outer `catch`
(500, `Failed to archive shipment`); an unparseable archive body reaches
the inner `catch` (500 with the raw text). -/
def archiveHandler (w : ArchiveWorld) : ArchiveOutcome :=
  let step := getShipRelayToken w.cache w.now w.login
  match step.result with
  | .loginFailed _ _ =>
    { status := 500, body := .failed, cache := step.cache,
      loginAttempted := step.loginAttempted, archiveCalled := false, shopCalls := [] }
  | _ =>
    match w.shipmentFetch with
    | .reject =>
      { status := 500, body := .failed, cache := step.cache,
        loginAttempted := step.loginAttempted, archiveCalled := false, shopCalls := [] }
    | _ =>
      let sd := shipmentDataOf w.shipmentFetch
      match w.archiveFetch with
      | .reject =>
        { status := 500, body := .failed, cache := step.cache,
          loginAttempted := step.loginAttempted, archiveCalled := true, shopCalls := [] }
      | .resp ok status body =>
        match body with
        | .raw t =>
          { status := 500, body := .invalidUpstream t, cache := step.cache,
            loginAttempted := step.loginAttempted, archiveCalled := true, shopCalls := [] }
        | .json d =>
          let calls := if ok && sd.isSome then cancelShopifyFulfillment sd w.shopify else []
          { status := status, body := .passthrough d, cache := step.cache,
            loginAttempted := step.loginAttempted, archiveCalled := true, shopCalls := calls }

/-! ## Hold / release endpoints -/

/-- The world of one hold or release request. -/
structure ActionWorld where
  cache : TokenCache
  now : Nat
  login : LoginResponse
  fetch : ArchiveFetch
deriving Repr

/-- The response of a hold/release request. -/
structure ActionOutcome where
  status : Nat
  body : ArchiveRespBody
deriving DecidableEq, Repr

/-- Modelled from the spec: the `PUT /shipment/:id/hold` and
`PUT /shipment/:id/release` handlers are described in the spec (§4.2, §6,
§8) but absent from `src/` — only the archive handler is present.  Per the
spec each forwards a PUT with empty body, and "response body may be
non-JSON — if parsing fails, fail with `UpstreamProtocolError` carrying the
raw text", surfaced as "500 on transport/parse error" with the upstream
status and body passed through otherwise, exactly the archive handler's
reply logic without prefetch or cancellation pipeline. -/
def holdReleaseHandler (w : ActionWorld) : ActionOutcome :=
  let step := getShipRelayToken w.cache w.now w.login
  match step.result with
  | .loginFailed _ _ => { status := 500, body := .failed }
  | _ =>
    match w.fetch with
    | .reject => { status := 500, body := .failed }
    | .resp _ status body =>
      match body with
      | .raw t => { status := 500, body := .invalidUpstream t }
      | .json d => { status := status, body := .passthrough d }

/-! ## Helper lemmas -/

theorem charToNat_ofNat_valid (n : Nat) (h : n.isValidChar) :
    (Char.ofNat n).toNat = n := by
  rw [Char.ofNat, dif_pos h]
  rfl

theorem charToLower_toLower (c : Char) :
    Char.toLower (Char.toLower c) = Char.toLower c := by
  unfold Char.toLower
  by_cases h : c.toNat ≥ 65 ∧ c.toNat ≤ 90
  · rw [if_pos h]
    have hv : (c.toNat + 32).isValidChar := Or.inl (by omega)
    rw [charToNat_ofNat_valid _ hv, if_neg (by omega)]
  · rw [if_neg h, if_neg h]

theorem jsToLowerCase_idem (s : String) :
    jsToLowerCase (jsToLowerCase s) = jsToLowerCase s := by
  show String.mk ((s.data.map Char.toLower).map Char.toLower) = String.mk (s.data.map Char.toLower)
  rw [List.map_map]
  exact congrArg String.mk (List.map_congr_left fun c _ => charToLower_toLower c)

/-- The invariant of claim C8: the two cache fields are present together. -/
def cacheConsistent (st : TokenCache) : Prop :=
  st.token.isSome ↔ st.expiry.isSome

/-! ## Claims -/

/-- **C1**  For every call to `getShipRelayToken`: if a cached token value
exists (a non-empty string, matching the JS truthiness test the code uses)
and the current time is strictly before the cached expiry, the cached value
is returned with the cache untouched and no login request is made;
otherwise exactly one login is performed, and on its success the returned
token is stored with expiry `now + 50` minutes, so a second call within 50
minutes of that successful login returns the same token value without a
new login. -/
theorem getShipRelayToken_cache_behavior
    (st : TokenCache) (now : Nat) (login : LoginResponse) :
    (∀ t e, st.token = some t → t ≠ "" → st.expiry = some e → now < e →
      getShipRelayToken st now login =
        { result := .cached t, cache := st, loginAttempted := false })
    ∧ (cacheHit st now = false →
        (getShipRelayToken st now login).loginAttempted = true
        ∧ ∀ t, login = .success t →
            getShipRelayToken st now login =
              { result := .fresh t,
                cache := { token := some t, expiry := some (now + 50 * 60 * 1000) },
                loginAttempted := true })
    ∧ (∀ t now2 login2, login = .success t → t ≠ "" → cacheHit st now = false →
        now2 < now + 50 * 60 * 1000 →
        getShipRelayToken (getShipRelayToken st now login).cache now2 login2 =
          { result := .cached t,
            cache := (getShipRelayToken st now login).cache,
            loginAttempted := false }) := by
  refine ⟨?_, ?_, ?_⟩
  · intro t e ht hne he hlt
    have hhit : cacheHit st now = true := by
      simp [cacheHit, jsTruthyStr, jsTruthyNum, ht, he, hne, hlt]
      omega
    rw [getShipRelayToken.eq_def, if_pos hhit, ht]
    rfl
  · intro hmiss
    rw [getShipRelayToken.eq_def, if_neg (by simp [hmiss])]
    cases login <;> simp
  · intro t now2 login2 hl hne hmiss hlt
    have hstep : getShipRelayToken st now login =
        { result := .fresh t,
          cache := { token := some t, expiry := some (now + 50 * 60 * 1000) },
          loginAttempted := true } := by
      rw [getShipRelayToken.eq_def, if_neg (by simp [hmiss]), hl]
    rw [hstep]
    rw [getShipRelayToken.eq_def]
    rw [if_pos (by simp [cacheHit, jsTruthyStr, jsTruthyNum, hne]; omega)]
    simp

/-- Witness for C1 at a concrete input: a hit on a warm cache, and the
second call within 50 minutes after a fresh login. -/
theorem getShipRelayToken_cache_behavior_witness :
    getShipRelayToken { token := some "tokA", expiry := some 100 } 50 (.failure 503 "down") =
      { result := .cached "tokA",
        cache := { token := some "tokA", expiry := some 100 },
        loginAttempted := false }
    ∧ getShipRelayToken
        (getShipRelayToken initialTokenCache 7 (.success "tokB")).cache
        3000000 (.failure 503 "down") =
      { result := .cached "tokB",
        cache := (getShipRelayToken initialTokenCache 7 (.success "tokB")).cache,
        loginAttempted := false } :=
  ⟨(getShipRelayToken_cache_behavior { token := some "tokA", expiry := some 100 } 50
      (.failure 503 "down")).1 "tokA" 100 rfl (by decide) rfl (by decide),
   (getShipRelayToken_cache_behavior initialTokenCache 7 (.success "tokB")).2.2 "tokB"
      3000000 (.failure 503 "down") rfl (by decide) (by decide) (by decide)⟩

/-- **C8**  The token cache starts empty at process start; the presence of
a token value and of an expiry instant are linked after every completed
`getShipRelayToken` call (both present or both absent); the two fields are
overwritten together, only on a successful login, and are never cleared
otherwise (any other call leaves the cache record untouched). -/
theorem tokenCache_invariant :
    initialTokenCache = { token := none, expiry := none }
    ∧ cacheConsistent initialTokenCache
    ∧ ∀ st now login, cacheConsistent st →
        cacheConsistent (getShipRelayToken st now login).cache
        ∧ ((getShipRelayToken st now login).cache = st
           ∨ ∃ t, login = .success t ∧ cacheHit st now = false
              ∧ (getShipRelayToken st now login).cache =
                  { token := some t, expiry := some (now + 50 * 60 * 1000) }) := by
  refine ⟨rfl, by simp [cacheConsistent, initialTokenCache], ?_⟩
  intro st now login h
  rw [getShipRelayToken.eq_def]
  by_cases hc : cacheHit st now
  · simp [hc, h]
  · cases login with
    | failure status body => simp [hc, h]
    | success t =>
      refine ⟨by simp [hc, cacheConsistent], Or.inr ⟨t, rfl, by simp [hc], by simp [hc]⟩⟩

/-- Witness for C8 at a concrete input: the invariant after a fresh login
performed on the initial (empty, hence consistent) cache. -/
theorem tokenCache_invariant_witness :
    cacheConsistent (getShipRelayToken initialTokenCache 0 (.success "tok")).cache :=
  (tokenCache_invariant.2.2 initialTokenCache 0 (.success "tok")
    (by simp [cacheConsistent, initialTokenCache])).1

/-- **C9 (counterexample)**  The claim says every status whose lowercase
form is outside the seven-entry table yields the default gray.  But
`statusColors[...]` in the source is JS bracket access on an object
literal, which falls back to the prototype chain: the status
`"constructor"` is outside the table yet returns the inherited truthy
`Object.prototype` member, not `"#6b7280"`. -/
theorem getStatusColor_proto_counterexample :
    jsToLowerCase "constructor" ∉
      ["queued", "held", "requested", "processing", "shipped", "returned", "inactive"]
    ∧ getStatusColor (some "constructor") = .protoMember "constructor"
    ∧ getStatusColor (some "constructor") ≠ .str "#6b7280" := by
  refine ⟨by decide, by decide, by decide⟩

/-- **C9 (amended)**  `getStatusColor` is case-insensitive: it agrees with
itself on the lowercased status, and in particular on
`"QUEUED"`/`"queued"`; an absent status yields the default gray, and so
does every status whose lowercase form is outside both the seven-entry
table and the two reachable `Object.prototype` names (`"constructor"`,
`"__proto__"`); those two instead return the inherited truthy prototype
member rather than a color. -/
theorem getStatusColor_case_and_default :
    (∀ s : String, getStatusColor (some s) = getStatusColor (some (jsToLowerCase s)))
    ∧ getStatusColor (some "QUEUED") = getStatusColor (some "queued")
    ∧ getStatusColor none = .str "#6b7280"
    ∧ (∀ s : String,
        jsToLowerCase s ∉
          ["queued", "held", "requested", "processing", "shipped", "returned", "inactive"] →
        jsToLowerCase s ∉ protoLowercaseKeys →
        getStatusColor (some s) = .str "#6b7280")
    ∧ ∀ s : String, jsToLowerCase s ∈ protoLowercaseKeys →
        getStatusColor (some s) = .protoMember (jsToLowerCase s) := by
  refine ⟨?_, by decide, rfl, ?_, ?_⟩
  · intro s
    show statusColorAccess (jsToLowerCase s)
      = statusColorAccess (jsToLowerCase (jsToLowerCase s))
    rw [jsToLowerCase_idem]
  · intro s h hp
    simp only [List.mem_cons, List.not_mem_nil, or_false, not_or] at h
    obtain ⟨h1, h2, h3, h4, h5, h6, h7⟩ := h
    have e1 : (jsToLowerCase s == "queued") = false := beq_eq_false_iff_ne.mpr h1
    have e2 : (jsToLowerCase s == "held") = false := beq_eq_false_iff_ne.mpr h2
    have e3 : (jsToLowerCase s == "requested") = false := beq_eq_false_iff_ne.mpr h3
    have e4 : (jsToLowerCase s == "processing") = false := beq_eq_false_iff_ne.mpr h4
    have e5 : (jsToLowerCase s == "shipped") = false := beq_eq_false_iff_ne.mpr h5
    have e6 : (jsToLowerCase s == "returned") = false := beq_eq_false_iff_ne.mpr h6
    have e7 : (jsToLowerCase s == "inactive") = false := beq_eq_false_iff_ne.mpr h7
    have hnone : statusColors.lookup (jsToLowerCase s) = none := by
      simp [statusColors, List.lookup, e1, e2, e3, e4, e5, e6, e7]
    show statusColorAccess (jsToLowerCase s) = .str "#6b7280"
    rw [statusColorAccess.eq_def, hnone, if_neg hp]
  · intro s hp
    show statusColorAccess (jsToLowerCase s) = .protoMember (jsToLowerCase s)
    rcases List.mem_cons.mp hp with hk | hk
    · rw [hk]; decide
    · rcases List.mem_cons.mp hk with hk2 | hk2
      · rw [hk2]; decide
      · exact absurd hk2 (List.not_mem_nil _)

/-- Witness for C9 at a concrete input: an unrecognized status maps to the
default gray, and a status hitting a reachable prototype name returns the
inherited member. -/
theorem getStatusColor_case_and_default_witness :
    getStatusColor (some "Lost-In-Transit") = .str "#6b7280"
    ∧ getStatusColor (some "__PROTO__") = .protoMember (jsToLowerCase "__PROTO__") :=
  ⟨getStatusColor_case_and_default.2.2.2.1 "Lost-In-Transit" (by decide) (by decide),
   getStatusColor_case_and_default.2.2.2.2 "__PROTO__" (by decide)⟩

/-- The login step can supply a token: the cache check passes or the login
succeeds.  (With a failing login and a cold cache, `getShipRelayToken`
throws and each handler answers 500 from its `catch`.) -/
def tokenOk (st : TokenCache) (now : Nat) (login : LoginResponse) : Bool :=
  cacheHit st now ||
    (match login with
     | .success _ => true
     | .failure _ _ => false)

theorem tokenOk_result (st : TokenCache) (now : Nat) (login : LoginResponse)
    (h : tokenOk st now login = true) :
    (∃ t, (getShipRelayToken st now login).result = .cached t)
    ∨ ∃ t, (getShipRelayToken st now login).result = .fresh t := by
  by_cases hc : cacheHit st now
  · refine Or.inl ⟨st.token.getD "", ?_⟩
    rw [getShipRelayToken.eq_def, if_pos hc]
  · cases login with
    | success t =>
      refine Or.inr ⟨t, ?_⟩
      rw [getShipRelayToken.eq_def, if_neg (by simp [hc])]
    | failure s b => simp [tokenOk, hc] at h

theorem shipmentLe_trans (a b c : Shipment) :
    shipmentLe a b → shipmentLe b c → shipmentLe a c := by
  simp only [shipmentLe, decide_eq_true_eq]
  omega

theorem shipmentLe_total (a b : Shipment) : shipmentLe a b || shipmentLe b a := by
  simp only [shipmentLe, Bool.or_eq_true, decide_eq_true_eq]
  omega

/-- Stability of the embedded sort: the elements sharing one `updated_at`
value keep their relative upstream order. -/
theorem filter_sortShipments_eq (k : Int) (l : List Shipment) :
    (sortShipments l).filter (fun s => s.updated_at == k)
      = l.filter (fun s => s.updated_at == k) := by
  have hpair : (l.filter (fun s => s.updated_at == k)).Pairwise (shipmentLe · ·) := by
    apply List.pairwise_of_forall_mem_list
    intro a ha b hb
    have ha2 := (List.mem_filter.mp ha).2
    have hb2 := (List.mem_filter.mp hb).2
    simp only [beq_iff_eq] at ha2 hb2
    simp [shipmentLe, ha2, hb2]
  have hsub : List.Sublist (l.filter (fun s => s.updated_at == k)) (sortShipments l) :=
    List.sublist_mergeSort shipmentLe_trans shipmentLe_total hpair (List.filter_sublist l)
  have hsub2 : List.Sublist (l.filter (fun s => s.updated_at == k))
      ((sortShipments l).filter (fun s => s.updated_at == k)) := by
    have h2 := hsub.filter (fun s => s.updated_at == k)
    rwa [List.filter_filter, List.filter_congr (fun a _ => Bool.and_self _)] at h2
  have hlen : ((sortShipments l).filter (fun s => s.updated_at == k)).length
      = (l.filter (fun s => s.updated_at == k)).length :=
    ((List.mergeSort_perm l shipmentLe).filter (fun s => s.updated_at == k)).length_eq
  exact (hsub2.eq_of_length hlen.symm).symm

/-- **C4**  A search request whose `order_ref` query parameter is absent,
not a string, or a string that is empty or whitespace-only is answered
400 with the validation error, and neither the login nor the shipments
fetch is issued. -/
theorem search_validation_rejects (q : QueryValue) (w : SearchWorld)
    (h : q = .absent ∨ q = .other ∨ ∃ s, q = .str s ∧ jsTrim s = "") :
    searchHandler q w =
      { status := 400, body := .validation, cache := w.cache,
        loginAttempted := false, upstreamCalled := false } := by
  have hinv : searchInvalid q = true := by
    rcases h with h | h | ⟨s, rfl, hs⟩
    · rw [h]; rfl
    · rw [h]; rfl
    · simp [searchInvalid, hs]
  rw [searchHandler.eq_def, if_pos hinv]

/-- Witness for C4 at a concrete input: a whitespace-only `order_ref`. -/
theorem search_validation_rejects_witness :
    searchHandler (.str "  ")
        { cache := initialTokenCache, now := 0,
          login := .success "tok", upstream := .reject } =
      { status := 400, body := .validation, cache := initialTokenCache,
        loginAttempted := false, upstreamCalled := false } :=
  search_validation_rejects (.str "  ")
    { cache := initialTokenCache, now := 0, login := .success "tok", upstream := .reject }
    (Or.inr (Or.inr ⟨"  ", rfl, by decide⟩))

/-- **C5**  When the upstream search succeeds with an array payload, the
caller receives status 200 and exactly that payload with `data` sorted by
`updated_at` descending; the sorted list is a permutation of the upstream
list (nothing added or removed), and shipments with equal `updated_at`
keep their relative upstream order. -/
theorem search_sorts_descending (q : QueryValue) (w : SearchWorld)
    (p : SearchPayload) (l : List Shipment)
    (hq : searchInvalid q = false)
    (htok : tokenOk w.cache w.now w.login = true)
    (hup : w.upstream = .okPayload p)
    (hd : p.data = some l) :
    (searchHandler q w).status = 200
    ∧ (searchHandler q w).body = .payload { data := some (sortShipments l) }
    ∧ (sortShipments l).Perm l
    ∧ (sortShipments l).Pairwise (fun a b => b.updated_at ≤ a.updated_at)
    ∧ ∀ k : Int, (sortShipments l).filter (fun s => s.updated_at == k)
        = l.filter (fun s => s.updated_at == k) := by
  have hout : searchHandler q w =
      { status := 200, body := .payload { data := some (sortShipments l) },
        cache := (getShipRelayToken w.cache w.now w.login).cache,
        loginAttempted := (getShipRelayToken w.cache w.now w.login).loginAttempted,
        upstreamCalled := true } := by
    rw [searchHandler.eq_def, if_neg (by simp [hq])]
    rcases tokenOk_result w.cache w.now w.login htok with ⟨t, hr⟩ | ⟨t, hr⟩ <;>
      simp [hr, hup, hd]
  refine ⟨by rw [hout], by rw [hout], List.mergeSort_perm l shipmentLe, ?_,
    fun k => filter_sortShipments_eq k l⟩
  have hs := List.sorted_mergeSort shipmentLe_trans shipmentLe_total l
  exact hs.imp (by intro a b hab; simpa [shipmentLe] using hab)

/-- A concrete upstream list with a tie on `updated_at`, for witnesses. -/
def sampleShipments : List Shipment :=
  [{ id := "a", updated_at := 1 }, { id := "b", updated_at := 5 },
   { id := "c", updated_at := 1 }]

/-- A concrete search world: warm token cache, upstream ok. -/
def sampleSearchWorld : SearchWorld :=
  { cache := { token := some "tok", expiry := some 10 }, now := 5,
    login := .failure 503 "down",
    upstream := .okPayload { data := some sampleShipments } }

/-- Witness for C5 at a concrete input: a valid query, warm token cache and
a three-element upstream payload containing a tie. -/
theorem search_sorts_descending_witness :
    (searchHandler (.str "#1001") sampleSearchWorld).status = 200
    ∧ (sortShipments sampleShipments).Perm sampleShipments := by
  have h := search_sorts_descending (.str "#1001") sampleSearchWorld
    { data := some sampleShipments } sampleShipments
    (by decide) (by decide) rfl rfl
  exact ⟨h.1, h.2.2.1⟩

/-- Evaluation of the archive handler when the archive upstream responds
with a JSON body: the reply passes the upstream status and parsed body
through, and the pipeline trace is exactly the guarded
`cancelShopifyFulfillment` run. -/
theorem archiveHandler_json (w : ArchiveWorld) (ok : Bool) (status : Nat) (d : String)
    (htok : tokenOk w.cache w.now w.login = true)
    (hsf : w.shipmentFetch ≠ .reject)
    (ha : w.archiveFetch = .resp ok status (.json d)) :
    archiveHandler w =
      { status := status, body := .passthrough d,
        cache := (getShipRelayToken w.cache w.now w.login).cache,
        loginAttempted := (getShipRelayToken w.cache w.now w.login).loginAttempted,
        archiveCalled := true,
        shopCalls := if ok && (shipmentDataOf w.shipmentFetch).isSome
          then cancelShopifyFulfillment (shipmentDataOf w.shipmentFetch) w.shopify
          else [] } := by
  rw [archiveHandler.eq_def]
  rcases tokenOk_result w.cache w.now w.login htok with ⟨t, hr⟩ | ⟨t, hr⟩ <;>
    cases hf : w.shipmentFetch <;> simp_all [shipmentDataOf]

/-- Evaluation of the archive handler when the archive upstream responds
with an unparseable body: 500 with the raw text, pipeline never reached. -/
theorem archiveHandler_raw (w : ArchiveWorld) (ok : Bool) (status : Nat) (t : String)
    (htok : tokenOk w.cache w.now w.login = true)
    (hsf : w.shipmentFetch ≠ .reject)
    (ha : w.archiveFetch = .resp ok status (.raw t)) :
    archiveHandler w =
      { status := 500, body := .invalidUpstream t,
        cache := (getShipRelayToken w.cache w.now w.login).cache,
        loginAttempted := (getShipRelayToken w.cache w.now w.login).loginAttempted,
        archiveCalled := true, shopCalls := [] } := by
  rw [archiveHandler.eq_def]
  rcases tokenOk_result w.cache w.now w.login htok with ⟨t2, hr⟩ | ⟨t2, hr⟩ <;>
    cases hf : w.shipmentFetch <;> simp_all

/-- The pipeline issues nothing when a credential or the order reference is
falsy (the guard on line 99). -/
theorem cancelShopify_skip (sd : Option ShipmentData) (env : ShopifyEnv)
    (h : credsConfigured env = false ∨ jsTruthyStr (sd.bind (·.order_ref)) = false) :
    cancelShopifyFulfillment sd env = [] := by
  rw [cancelShopifyFulfillment.eq_def]
  rcases h with h | h <;> simp [h]

/-- **C2**  Whenever the archive upstream call resolves with a JSON body,
the caller receives exactly the upstream status and parsed body; this holds
for every state of the Shopify pipeline environment (order lookup,
fulfillment enumeration, per-fulfillment cancels each succeeding, failing
or rejecting), so no pipeline failure ever changes the archive endpoint's
own response — the pipeline is total (its `catch` only logs) and its result
is never consulted by the reply. -/
theorem archive_response_passthrough (w : ArchiveWorld) (ok : Bool) (status : Nat) (d : String)
    (htok : tokenOk w.cache w.now w.login = true)
    (hsf : w.shipmentFetch ≠ .reject)
    (ha : w.archiveFetch = .resp ok status (.json d)) :
    (archiveHandler w).status = status
    ∧ (archiveHandler w).body = .passthrough d
    ∧ ∀ env : ShopifyEnv,
        (archiveHandler { w with shopify := env }).status = status
        ∧ (archiveHandler { w with shopify := env }).body = .passthrough d := by
  refine ⟨?_, ?_, fun env => ⟨?_, ?_⟩⟩
  · rw [archiveHandler_json w ok status d htok hsf ha]
  · rw [archiveHandler_json w ok status d htok hsf ha]
  · rw [archiveHandler_json { w with shopify := env } ok status d htok hsf ha]
  · rw [archiveHandler_json { w with shopify := env } ok status d htok hsf ha]

/-- A concrete Shopify environment whose first pipeline call rejects
(throws), for witnesses. -/
def envThrowing : ShopifyEnv :=
  { shopToken := some "shpat", shopDomain := some "store",
    orderSearchResp := .reject, fulfillResp := .reject,
    cancelResp := fun _ => .reject }

/-- A concrete archive world: warm token cache, shipment fetched with an
order reference, archive upstream ok with a JSON body, pipeline throwing. -/
def sampleArchiveWorld : ArchiveWorld :=
  { cache := { token := some "tok", expiry := some 10 }, now := 5,
    login := .failure 503 "down",
    shipmentFetch := .okData (some { order_ref := some "#2002" }),
    archiveFetch := .resp true 200 (.json "archived-doc"),
    shopify := envThrowing }

/-- Witness for C2 at a concrete input: archive passthrough while the
pipeline's first Shopify call throws. -/
theorem archive_response_passthrough_witness :
    (archiveHandler sampleArchiveWorld).status = 200
    ∧ (archiveHandler sampleArchiveWorld).body = .passthrough "archived-doc" := by
  have h := archive_response_passthrough sampleArchiveWorld true 200 "archived-doc"
    (by decide) (by decide) rfl
  exact ⟨h.1, h.2.1⟩

/-- **C6**  If either commerce credential is not configured, or the fetched
shipment carries no (truthy) `order_ref`, an archive request with a JSON
upstream body issues zero commerce-platform calls and still returns the
upstream archive status and body unchanged — the skip is silent, not an
error. -/
theorem archive_skip_without_creds_or_ref (w : ArchiveWorld) (ok : Bool) (status : Nat) (d : String)
    (htok : tokenOk w.cache w.now w.login = true)
    (hsf : w.shipmentFetch ≠ .reject)
    (ha : w.archiveFetch = .resp ok status (.json d))
    (h : credsConfigured w.shopify = false
        ∨ jsTruthyStr ((shipmentDataOf w.shipmentFetch).bind (·.order_ref)) = false) :
    (archiveHandler w).shopCalls = []
    ∧ (archiveHandler w).status = status
    ∧ (archiveHandler w).body = .passthrough d := by
  rw [archiveHandler_json w ok status d htok hsf ha]
  refine ⟨?_, rfl, rfl⟩
  by_cases hc : (ok && (shipmentDataOf w.shipmentFetch).isSome) = true
  · simp only [hc, if_pos]
    exact cancelShopify_skip _ _ (by tauto)
  · simp [hc]

/-- Witness for C6 at a concrete input: credentials absent, archive still
passes its upstream response through with zero commerce calls. -/
theorem archive_skip_without_creds_or_ref_witness :
    (archiveHandler
      { sampleArchiveWorld with
          shopify := { envThrowing with shopToken := none } }).shopCalls = []
    ∧ (archiveHandler
      { sampleArchiveWorld with
          shopify := { envThrowing with shopToken := none } }).status = 200 := by
  have h := archive_skip_without_creds_or_ref
    { sampleArchiveWorld with shopify := { envThrowing with shopToken := none } }
    true 200 "archived-doc" (by decide) (by decide) rfl (Or.inl (by decide))
  exact ⟨h.1, h.2.1⟩

/-- **C10**  When the pre-archive shipment-by-id fetch yields no usable
shipment data (non-ok status, or an ok response whose parsed value is
falsy), the archive call is still issued, zero commerce-platform calls are
made whatever the Shopify environment holds, and if the archive body is
JSON its upstream status and parsed body are returned to the caller. -/
theorem archive_proceeds_without_shipment_data (w : ArchiveWorld) (ok : Bool) (status : Nat) (b : UpBody)
    (htok : tokenOk w.cache w.now w.login = true)
    (hsf : (∃ s0, w.shipmentFetch = .notOk s0) ∨ w.shipmentFetch = .okData none)
    (ha : w.archiveFetch = .resp ok status b) :
    (archiveHandler w).archiveCalled = true
    ∧ (archiveHandler w).shopCalls = []
    ∧ ∀ d, b = .json d →
        (archiveHandler w).status = status ∧ (archiveHandler w).body = .passthrough d := by
  have hnr : w.shipmentFetch ≠ .reject := by
    rcases hsf with ⟨s0, h⟩ | h <;> simp [h]
  have hsd : shipmentDataOf w.shipmentFetch = none := by
    rcases hsf with ⟨s0, h⟩ | h <;> simp [h, shipmentDataOf]
  cases b with
  | json d =>
    rw [archiveHandler_json w ok status d htok hnr ha]
    refine ⟨rfl, by simp [hsd], fun d2 hd2 => ?_⟩
    cases hd2
    exact ⟨rfl, rfl⟩
  | raw t =>
    rw [archiveHandler_raw w ok status t htok hnr ha]
    exact ⟨rfl, rfl, fun d2 hd2 => by cases hd2⟩

/-- Witness for C10 at a concrete input: the prefetch fails with 404 while
credentials are configured; the archive passthrough still happens with an
empty commerce trace. -/
theorem archive_proceeds_without_shipment_data_witness :
    (archiveHandler { sampleArchiveWorld with shipmentFetch := .notOk 404 }).archiveCalled = true
    ∧ (archiveHandler { sampleArchiveWorld with shipmentFetch := .notOk 404 }).shopCalls = []
    ∧ (archiveHandler { sampleArchiveWorld with shipmentFetch := .notOk 404 }).status = 200 := by
  have h := archive_proceeds_without_shipment_data
    { sampleArchiveWorld with shipmentFetch := .notOk 404 }
    true 200 (.json "archived-doc") (by decide) (Or.inl ⟨404, rfl⟩) rfl
  exact ⟨h.1, h.2.1, (h.2.2 "archived-doc" rfl).1⟩

/-- **C7**  A non-JSON upstream body on the archive endpoint (from `src/`)
and on the spec-modelled hold/release endpoints yields a 500 response whose
body carries the raw upstream text; the handlers are total functions, so no
parse exception escapes them. -/
theorem nonjson_upstream_yields_500_raw (w : ArchiveWorld) (v : ActionWorld)
    (ok : Bool) (status : Nat) (t : String) (ok2 : Bool) (status2 : Nat) (t2 : String)
    (htokA : tokenOk w.cache w.now w.login = true)
    (hsf : w.shipmentFetch ≠ .reject)
    (ha : w.archiveFetch = .resp ok status (.raw t))
    (htokH : tokenOk v.cache v.now v.login = true)
    (hh : v.fetch = .resp ok2 status2 (.raw t2)) :
    (archiveHandler w).status = 500
    ∧ (archiveHandler w).body = .invalidUpstream t
    ∧ holdReleaseHandler v = { status := 500, body := .invalidUpstream t2 } := by
  rw [archiveHandler_raw w ok status t htokA hsf ha]
  refine ⟨rfl, rfl, ?_⟩
  rw [holdReleaseHandler.eq_def]
  rcases tokenOk_result v.cache v.now v.login htokH with ⟨u, hr⟩ | ⟨u, hr⟩ <;>
    simp [hr, hh]

/-- Witness for C7 at a concrete input: an HTML error page as the upstream
body on archive and on hold/release. -/
theorem nonjson_upstream_yields_500_raw_witness :
    (archiveHandler
      { sampleArchiveWorld with archiveFetch := .resp false 502 (.raw "<html>bad gateway</html>") }).status = 500
    ∧ holdReleaseHandler
        { cache := { token := some "tok", expiry := some 10 }, now := 5,
          login := .failure 503 "down",
          fetch := .resp false 502 (.raw "<html>bad gateway</html>") } =
      { status := 500, body := .invalidUpstream "<html>bad gateway</html>" } := by
  have h := nonjson_upstream_yields_500_raw
    { sampleArchiveWorld with archiveFetch := .resp false 502 (.raw "<html>bad gateway</html>") }
    { cache := { token := some "tok", expiry := some 10 }, now := 5,
      login := .failure 503 "down",
      fetch := .resp false 502 (.raw "<html>bad gateway</html>") }
    false 502 "<html>bad gateway</html>" false 502 "<html>bad gateway</html>"
    (by decide) (by decide) rfl (by decide) rfl
  exact ⟨h.1, h.2.2⟩

/-- Number of order-lookup calls for order number `n` in a pipeline trace. -/
def lookupCount : List ShopCall → String → Nat
  | [], _ => 0
  | .orderSearch m :: rest, n => (if m = n then 1 else 0) + lookupCount rest n
  | .fulfillmentList _ :: rest, n => lookupCount rest n
  | .cancel _ _ :: rest, n => lookupCount rest n

theorem lookupCount_runCancels (env : ShopifyEnv) (oid : Nat) (fs : List Fulfillment)
    (n : String) : lookupCount (runCancels env oid fs) n = 0 := by
  induction fs with
  | nil => rfl
  | cons f fs ih =>
    rw [runCancels.eq_def]
    cases h : env.cancelResp f.id <;> simp [lookupCount, h, ih]

/-- After the guard, the pipeline issues exactly one order lookup — the
very first call — and it uses the source's normalization of `order_ref`;
nothing later in the trace is another lookup. -/
theorem pipeline_trace_shape (sd : ShipmentData) (ref : String) (env : ShopifyEnv)
    (href : sd.order_ref = some ref) (hne : ref ≠ "")
    (hcreds : credsConfigured env = true) (n : String) :
    lookupCount (cancelShopifyFulfillment (some sd) env) n
      = if orderNumberOf ref = n then 1 else 0 := by
  rw [cancelShopifyFulfillment.eq_def]
  rw [if_neg (by simp [jsTruthyStr, href, hne, hcreds])]
  have hgd : ((some sd).bind (·.order_ref)).getD "" = ref := by simp [href]
  rw [hgd]
  have htail : ∀ tail : List ShopCall, lookupCount (.orderSearch (orderNumberOf ref) :: tail) n
      = (if orderNumberOf ref = n then 1 else 0) + lookupCount tail n := fun _ => rfl
  cases hos : env.orderSearchResp with
  | reject => simp [lookupCount]
  | resp ok body =>
    by_cases hok : ok
    · simp only [hok, Bool.not_true, Bool.false_eq_true, if_false]
      cases horders : body.orders with
      | none => simp [lookupCount]
      | some orders =>
        cases orders with
        | nil => simp [lookupCount]
        | cons o os =>
          cases hfr : env.fulfillResp with
          | reject => simp [lookupCount]
          | resp ok2 fbody =>
            by_cases hok2 : ok2 <;>
              simp [hok2, lookupCount, lookupCount_runCancels]
    · simp [hok, lookupCount]

/-- **C3 (counterexample)**  The claim says step 1 removes a *leading*
marker `'#'`; the code removes the *first occurrence anywhere*.  For an
archived shipment with configured credentials and
`order_ref = "20#02"`, the code issues its one order lookup for `"2002"`,
and zero lookups are issued for the leading-marker normalization
`stripLeadingHash "20#02" = "20#02"` — refuting the claim as stated. -/
theorem pipeline_lookup_counterexample :
    cancelShopifyFulfillment (some { order_ref := some "20#02" }) envThrowing
      = [ShopCall.orderSearch "2002"]
    ∧ stripLeadingHash "20#02" = "20#02"
    ∧ lookupCount (cancelShopifyFulfillment (some { order_ref := some "20#02" }) envThrowing)
        (stripLeadingHash "20#02") = 0 := by
  refine ⟨?_, by decide, ?_⟩ <;> decide

/-- **C3 (amended)**  For every archived shipment whose `order_ref` is a
non-empty string and with commerce credentials configured, the pipeline's
step 1 removes the *first occurrence* of `'#'` from `order_ref` (which is
the leading marker whenever `order_ref` starts with `'#'`), and exactly
one commerce-platform order lookup is issued, for exactly that number; in
particular `order_ref = "#2002"` is looked up as order number `"2002"`. -/
theorem pipeline_single_lookup (sd : ShipmentData) (ref : String) (env : ShopifyEnv)
    (href : sd.order_ref = some ref) (hne : ref ≠ "")
    (hcreds : credsConfigured env = true) :
    lookupCount (cancelShopifyFulfillment (some sd) env) (orderNumberOf ref) = 1
    ∧ (∀ n, n ≠ orderNumberOf ref →
        lookupCount (cancelShopifyFulfillment (some sd) env) n = 0)
    ∧ (∀ rest : List Char, ref.data = '#' :: rest → orderNumberOf ref = ⟨rest⟩)
    ∧ orderNumberOf "#2002" = "2002" := by
  refine ⟨?_, ?_, ?_, by decide⟩
  · rw [pipeline_trace_shape sd ref env href hne hcreds (orderNumberOf ref)]
    simp
  · intro n hn
    rw [pipeline_trace_shape sd ref env href hne hcreds n]
    rw [if_neg (fun h => hn h.symm)]
  · intro rest hd
    show String.mk (removeFirstHash ref.data) = String.mk rest
    rw [hd]
    simp [removeFirstHash]

/-- Witness for the amended C3 at a concrete input: `order_ref = "#2002"`
with configured credentials issues exactly one lookup, for `"2002"`. -/
theorem pipeline_single_lookup_witness :
    lookupCount (cancelShopifyFulfillment (some { order_ref := some "#2002" }) envThrowing)
      (orderNumberOf "#2002") = 1 :=
  (pipeline_single_lookup { order_ref := some "#2002" } "#2002" envThrowing
    rfl (by decide) (by decide)).1

example : getStatusColor (some "QUEUED") = .str "#f59e0b" := by decide
example : getStatusColor (some "__proto__") = .protoMember "__proto__" := by decide
example : getShipRelayToken initialTokenCache 0 (.success "tok") =
    { result := .fresh "tok",
      cache := { token := some "tok", expiry := some 3000000 },
      loginAttempted := true } := by decide
example : orderNumberOf "#2002" = "2002" := by decide
example : orderNumberOf "20#02" = "2002" := by decide
example : jsTrim "  " = "" := by decide
